import Mathlib

/-!
# Shallow embedding of the ZeeU api socket server

This file embeds the session protocol of the repository (src/api-socket.js,
index.js): an ApiSocket session holds an optional authenticated subject id
(uid), a cached subject profile (user), and a subscription registry (a JS Map
from subscription id to a cancellation handle).  Handlers are embedded as pure
functions from a session state and an oracle (modelling the external Firebase
capabilities: token verification, document reads, query results, generated ids,
the clock, and the behaviour of cancellation handles) to an outcome: the new
session state, a trace of observable effects (emitted websocket events, data
store operations, handle invocations, Map deletions, the close callback), and
an optional uncaught JavaScript exception.
-/

namespace ZeeU

/-- A document payload: a flat field map (element order is the JS object field
order).  Document field values are modelled as strings; booleans and
timestamps are rendered to strings where the source writes them. -/
abbrev Doc := List (String × String)

/-- A Firestore query: a collection path, equality filters in application
order, and an optional orderBy field. -/
structure Query where
  path : List String
  filters : List (String × String) := []
  orderBy : Option String := none
deriving Repr, DecidableEq

/-- A data store operation issued by a handler. -/
inductive StoreOp where
  | getDoc (path : List String)
  | setDoc (path : List String) (data : Doc) (merge : Bool)
  | updateDoc (path : List String) (data : Doc)
  | addDoc (path : List String) (data : Doc)
  | runQuery (q : Query)
  | watchQuery (q : Query)
  | watchDoc (path : List String)
deriving Repr, DecidableEq

/-- The content carried by a get-success event. -/
inductive GetContent where
  | docs (ds : List (String × Doc))
  | doc (d : Doc)
  | str (s : String)
deriving Repr, DecidableEq

/-- An outgoing websocket event (the argument of this.#emit in the source). -/
inductive Event where
  | verifySuccess
  | fetchSuccess
  | error (detail : String)
  | subscribeSuccess (ref : Option String) (sid : String)
  | getSuccess (ref : Option String) (content : Option GetContent)
  | postSuccess (ref : Option String)
deriving Repr, DecidableEq

/-- One observable effect of handling a message. -/
inductive Effect where
  | emit (e : Event)
  | store (op : StoreOp)
  | cancel (hid : Nat)
  | mapDelete (sid : String)
  | onClose
deriving Repr, DecidableEq

/-- An uncaught JavaScript exception escaping the message handler. -/
inductive JsError where
  | jsonParse
  | handleThrew
  | idLoopDiverges
deriving Repr, DecidableEq

/-- A cancellation handle stored in the subscription registry: the identity of
the underlying live query and whether invoking the handle throws (the handle
itself is an opaque closure returned by onSnapshot). -/
structure Handle where
  hid : Nat
  fails : Bool
deriving Repr, DecidableEq

/-- The mutable per-session fields of ApiSocket.  nextHid and rngIndex are
modelling state: nextHid numbers the closures created by onSnapshot and
rngIndex is the read position in the nanoid stream.  onClose records whether
a close callback was supplied to the constructor (index.js always supplies
one). -/
structure Session where
  uid : Option String
  user : Option Doc
  subscriptions : List (String × Handle)
  nextHid : Nat
  rngIndex : Nat
  onClose : Bool
deriving Repr, DecidableEq

/-- The request params object; absent JSON fields are none.  endTime models
the params field named end (a Lean keyword). -/
structure Params where
  token : Option String := none
  sid : Option String := none
  collection : Option String := none
  id : Option String := none
  uid : Option String := none
  ref : Option String := none
  user : Option Doc := none
  chatId : Option String := none
  type : Option String := none
  content : Option String := none
  specialty : Option String := none
  doctor : Option String := none
  start : Option String := none
  endTime : Option String := none
deriving Repr, DecidableEq

/-- The parsed request envelope. -/
structure Request where
  type : String
  params : Params := {}
deriving Repr, DecidableEq

/-- An incoming frame: either it parses to a request envelope or JSON.parse
throws on it. -/
inductive RawFrame where
  | ok (request : Request)
  | bad
deriving Repr, DecidableEq

/-- The deterministic oracle for the external capabilities: verifyIdToken,
document reads, query snapshots, ids returned by add, Timestamp.now, the
nanoid stream (with a fuel bound on the collision retry loop), and whether
invoking the k-th created cancellation handle throws. -/
structure Oracle where
  verify : Option String → Except String String
  docData : List String → Option Doc
  queryResult : Query → List (String × Doc)
  addResult : List String → Doc → String
  now : String
  nanoid : Nat → String
  fuel : Nat
  cancelFails : Nat → Bool

/-- The result of a handler: final session state, effect trace, and an
optional uncaught exception (effects before the throw are kept). -/
structure Outcome where
  s : Session
  effs : List Effect
  err : Option JsError
deriving Repr, DecidableEq

/-- Wrap an exception-free state-and-trace pair as an outcome. -/
def ofPair (p : Session × List Effect) : Outcome :=
  { s := p.1, effs := p.2, err := none }

/-- JS string truthiness for an optional string field (null and the empty
string are falsy). -/
def truthy : Option String → Bool
  | none => false
  | some x => x != ""

/-- this.#uid at a call site where the source has already ensured it is a
string (defaults to the empty string otherwise). -/
def uidStr (s : Session) : String := s.uid.getD ""

/-- this.#user.user_type.  The source reads the field off the cached profile;
a missing profile or field is modelled as the empty string (in JS a null
profile would throw, which no flow quantified over here reaches). -/
def userType (s : Session) : String :=
  ((s.user.getD []).lookup "user_type").getD ""

/-- JS Map.prototype.set: replace in place when the key exists, else append
(insertion order preserved). -/
def mapSet (m : List (String × Handle)) (k : String) (v : Handle) :
    List (String × Handle) :=
  if (m.lookup k).isSome then
    m.map (fun p => if p.1 == k then (k, v) else p)
  else
    m ++ [(k, v)]

/-- JS Map.prototype.delete: remove the entry with the given key. -/
def mapEraseKey (m : List (String × Handle)) (k : String) :
    List (String × Handle) :=
  m.filter (fun p => p.1 != k)

/-- The nanoid retry loop of #newSubscriptionId: try successive stream values
until one is not a registry key; fuel bounds the search (the source loop does
not terminate when the stream never yields a fresh id). -/
def findFresh (o : Oracle) (m : List (String × Handle)) :
    Nat → Nat → Option (String × Nat)
  | 0, _ => none
  | Nat.succ fuel, k =>
    let i := o.nanoid k
    if (m.lookup i).isSome then findFresh o m fuel (k + 1)
    else some (i, k + 1)

/-- #newSubscriptionId: the fresh id together with the advanced stream
position; none models divergence of the do-while loop. -/
def newSubscriptionId (o : Oracle) (s : Session) : Option (String × Nat) :=
  findFresh o s.subscriptions o.fuel s.rngIndex

/-- #setActiveStatus: merge-set the active flag on the subject document; a
falsy uid (null or empty) returns without writing. -/
def setActiveStatus (s : Session) (status : Bool) : List Effect :=
  match s.uid with
  | none => []
  | some u =>
    if u = "" then []
    else [Effect.store (StoreOp.setDoc ["users", u]
            [("active", if status then "true" else "false")] true)]

/-- #fetchUser: read the subject document, cache its data as the profile, and
emit fetch-success. -/
def fetchUser (o : Oracle) (s : Session) : Session × List Effect :=
  let u := uidStr s
  ({ s with user := o.docData ["users", u] },
   [Effect.store (StoreOp.getDoc ["users", u]), Effect.emit Event.fetchSuccess])

/-- #verifyToken: on verification success set uid, run #fetchUser, persist
active=true and emit verify-success; on failure emit an error event carrying
the detail.  The whole promise chain is caught, so no exception escapes. -/
def verifyToken (o : Oracle) (s : Session) (token : Option String) :
    Session × List Effect :=
  match o.verify token with
  | Except.error e => (s, [Effect.emit (Event.error e)])
  | Except.ok u =>
    let s1 := { s with uid := some u }
    let r := fetchUser o s1
    (r.1, r.2 ++ setActiveStatus r.1 true ++ [Effect.emit Event.verifySuccess])

/-- The query of #subscribeAppointments and #getAppointments: appointments
where the field named by the profile user_type equals the uid. -/
def appointmentsQuery (s : Session) : Query :=
  { path := ["appointments"], filters := [(userType s, uidStr s)] }

/-- The query of #subscribeChats: chats where the field named by the profile
user_type equals the uid. -/
def chatsQuery (s : Session) : Query :=
  { path := ["chats"], filters := [(userType s, uidStr s)] }

/-- The handle created for a new onSnapshot registration. -/
def newHandle (o : Oracle) (s : Session) : Handle :=
  { hid := s.nextHid, fails := o.cancelFails s.nextHid }

/-- #subscribeAppointments: open the live appointments query and register the
cancellation handle under the given id. -/
def subscribeAppointments (o : Oracle) (s : Session) (subscriptionId : String) :
    Session × List Effect :=
  ({ s with subscriptions := mapSet s.subscriptions subscriptionId (newHandle o s),
            nextHid := s.nextHid + 1 },
   [Effect.store (StoreOp.watchQuery (appointmentsQuery s))])

/-- #subscribeChats: open the live chats query and register the cancellation
handle under the given id. -/
def subscribeChats (o : Oracle) (s : Session) (subscriptionId : String) :
    Session × List Effect :=
  ({ s with subscriptions := mapSet s.subscriptions subscriptionId (newHandle o s),
            nextHid := s.nextHid + 1 },
   [Effect.store (StoreOp.watchQuery (chatsQuery s))])

/-- #subscribeMessages: open the live message thread of the given chat,
ordered by time, and register the cancellation handle. -/
def subscribeMessages (o : Oracle) (s : Session) (subscriptionId : String)
    (id : Option String) : Session × List Effect :=
  ({ s with subscriptions := mapSet s.subscriptions subscriptionId (newHandle o s),
            nextHid := s.nextHid + 1 },
   [Effect.store (StoreOp.watchQuery
      { path := ["chats", id.getD "", "messages"], orderBy := some "time" })])

/-- #subscribeUser: open a live watch on the named user document and register
the cancellation handle. -/
def subscribeUser (o : Oracle) (s : Session) (subscriptionId : String)
    (uid : Option String) : Session × List Effect :=
  ({ s with subscriptions := mapSet s.subscriptions subscriptionId (newHandle o s),
            nextHid := s.nextHid + 1 },
   [Effect.store (StoreOp.watchDoc ["users", uid.getD ""])])

/-- #handleSubscribe: allocate a fresh subscription id, dispatch on
params.collection (an unknown collection registers nothing), then emit
subscribe-success carrying the echoed ref and the new id. -/
def handleSubscribe (o : Oracle) (s : Session) (params : Params) : Outcome :=
  match newSubscriptionId o s with
  | none => { s := s, effs := [], err := some JsError.idLoopDiverges }
  | some (sid, k) =>
    let s0 := { s with rngIndex := k }
    let r : Session × List Effect :=
      match params.collection with
      | some "appointments" => subscribeAppointments o s0 sid
      | some "chats" => subscribeChats o s0 sid
      | some "messages" => subscribeMessages o s0 sid params.id
      | some "user" => subscribeUser o s0 sid params.uid
      | _ => (s0, [])
    { s := r.1,
      effs := r.2 ++ [Effect.emit (Event.subscribeSuccess params.ref sid)],
      err := none }

/-- #getAppointments: one-shot run of the appointments query. -/
def getAppointments (o : Oracle) (s : Session) : GetContent × List Effect :=
  (GetContent.docs (o.queryResult (appointmentsQuery s)),
   [Effect.store (StoreOp.runQuery (appointmentsQuery s))])

/-- #getDoctors: query users with user_type doctor, adding a specialty filter
when the argument is truthy. -/
def getDoctors (o : Oracle) (specialty : Option String) :
    GetContent × List Effect :=
  let q : Query :=
    { path := ["users"],
      filters := [("user_type", "doctor")] ++
        (if truthy specialty then [("specialty", specialty.getD "")] else []) }
  (GetContent.docs (o.queryResult q), [Effect.store (StoreOp.runQuery q)])

/-- The document written by the add branch of #getChatIdWithDoctor. -/
def newChatDoc (doctor patient now : String) : Doc :=
  [("doctor", doctor), ("patient", patient), ("latest_message_text", ""),
   ("latest_message_time", now), ("latest_message_seen_doctor", "false"),
   ("latest_message_seen_patient", "false")]

/-- #getChatIdWithDoctor: return the id of the existing chat between the
doctor and the caller, or add a fresh chat document and return its id. -/
def getChatIdWithDoctor (o : Oracle) (s : Session) (doctor : Option String) :
    GetContent × List Effect :=
  let q : Query :=
    { path := ["chats"],
      filters := [("doctor", doctor.getD ""), ("patient", uidStr s)] }
  match o.queryResult q with
  | d :: _ => (GetContent.str d.1, [Effect.store (StoreOp.runQuery q)])
  | [] =>
    let data := newChatDoc (doctor.getD "") (uidStr s) o.now
    (GetContent.str (o.addResult ["chats"] data),
     [Effect.store (StoreOp.runQuery q), Effect.store (StoreOp.addDoc ["chats"] data)])

/-- #handleGet: dispatch on params.collection (an unknown collection leaves
the data undefined), then emit get-success with the echoed ref and the
content. -/
def handleGet (o : Oracle) (s : Session) (params : Params) : List Effect :=
  let r : Option GetContent × List Effect :=
    match params.collection with
    | some "appointments" =>
      let g := getAppointments o s; (some g.1, g.2)
    | some "doctors" =>
      let g := getDoctors o params.specialty; (some g.1, g.2)
    | some "user" =>
      let u := params.uid.getD ""
      ((o.docData ["users", u]).map GetContent.doc,
       [Effect.store (StoreOp.getDoc ["users", u])])
    | some "chatId" =>
      let g := getChatIdWithDoctor o s params.doctor; (some g.1, g.2)
    | _ => (none, [])
  r.2 ++ [Effect.emit (Event.getSuccess params.ref r.1)]

/-- #setUser: full (non-merge) set of the named user document to the supplied
object. -/
def setUser (uid : String) (user : Doc) : List Effect :=
  [Effect.store (StoreOp.setDoc ["users", uid] user false)]

/-- #setTextMessage: append a text message to the chat thread. -/
def setTextMessage (s : Session) (chatId text time : String) : List Effect :=
  [Effect.store (StoreOp.addDoc ["chats", chatId, "messages"]
    [("type", "text"), ("content", text), ("time", time),
     ("from_doctor", if userType s = "doctor" then "true" else "false")])]

/-- #setImageMessage: append an image message to the chat thread. -/
def setImageMessage (s : Session) (chatId path time : String) : List Effect :=
  [Effect.store (StoreOp.addDoc ["chats", chatId, "messages"]
    [("type", "image"), ("content", path), ("time", time),
     ("from_doctor", if userType s = "doctor" then "true" else "false")])]

/-- #setMessage: append the message by kind, then update the latest-message
summary of the chat (an unknown kind appends nothing and writes an undefined
summary text, rendered here as the string undefined). -/
def setMessage (o : Oracle) (s : Session) (chatId : String)
    (mtype content : Option String) : List Effect :=
  let time := o.now
  let r : Option String × List Effect :=
    match mtype with
    | some "text" => (content, setTextMessage s chatId (content.getD "") time)
    | some "image" => (some "Photo", setImageMessage s chatId (content.getD "") time)
    | _ => (none, [])
  r.2 ++ [Effect.store (StoreOp.updateDoc ["chats", chatId]
    [("latest_message_text", r.1.getD "undefined"),
     ("latest_message_time", time),
     ("latest_message_seen_doctor", "false"),
     ("latest_message_seen_patient", "false")])]

/-- #seenLatestMessage: mark the latest message seen for the caller role. -/
def seenLatestMessage (s : Session) (chatId : String) : List Effect :=
  if userType s = "doctor" then
    [Effect.store (StoreOp.updateDoc ["chats", chatId]
      [("latest_message_seen_doctor", "true")])]
  else
    [Effect.store (StoreOp.updateDoc ["chats", chatId]
      [("latest_message_seen_patient", "true")])]

/-- #setAppointment: read the chat, add an appointment document copying the
chat parties, append a system message carrying the appointment id, and update
the latest-message summary. -/
def setAppointment (o : Oracle) (chatId : String)
    (start endTime : Option String) : List Effect :=
  let chat := (o.docData ["chats", chatId]).getD []
  let apptData : Doc :=
    [("doctor", (chat.lookup "doctor").getD ""),
     ("patient", (chat.lookup "patient").getD ""),
     ("start", start.getD ""), ("end", endTime.getD "")]
  let apptId := o.addResult ["appointments"] apptData
  let msgTime := o.now
  [Effect.store (StoreOp.getDoc ["chats", chatId]),
   Effect.store (StoreOp.addDoc ["appointments"] apptData),
   Effect.store (StoreOp.addDoc ["chats", chatId, "messages"]
     [("from_doctor", "true"), ("type", "appointment"),
      ("content", apptId), ("time", msgTime)]),
   Effect.store (StoreOp.updateDoc ["chats", chatId]
     [("latest_message_text", "Appointment"), ("latest_message_time", msgTime),
      ("latest_message_seen_doctor", "false"),
      ("latest_message_seen_patient", "false")])]

/-- #handlePost: dispatch on params.collection (an unknown collection runs no
mutation), then emit post-success with the echoed ref. -/
def handlePost (o : Oracle) (s : Session) (params : Params) : List Effect :=
  (match params.collection with
   | some "user" => setUser (params.uid.getD "") (params.user.getD [])
   | some "message" =>
     setMessage o s (params.chatId.getD "") params.type params.content
   | some "seen" => seenLatestMessage s (params.chatId.getD "")
   | some "appointment" =>
     setAppointment o (params.chatId.getD "") params.start params.endTime
   | _ => []) ++ [Effect.emit (Event.postSuccess params.ref)]

/-- #unsubscribe: no-op when the id is not a registry key; otherwise invoke
the stored handle and then delete the mapping (the source order is
invoke-then-delete, so a throwing handle leaves its mapping in place). -/
def unsubscribe (s : Session) (subscriptionId : Option String) : Outcome :=
  match subscriptionId with
  | none => { s := s, effs := [], err := none }
  | some sid =>
    match s.subscriptions.lookup sid with
    | none => { s := s, effs := [], err := none }
    | some h =>
      if h.fails then
        { s := s, effs := [Effect.cancel h.hid], err := some JsError.handleThrew }
      else
        { s := { s with subscriptions := mapEraseKey s.subscriptions sid },
          effs := [Effect.cancel h.hid, Effect.mapDelete sid], err := none }

/-- The for-of loop body of #unsubscribeAll: invoke each handle in insertion
order; a throwing handle aborts the loop and the exception propagates. -/
def runCancels : List (String × Handle) → List Effect × Option JsError
  | [] => ([], none)
  | (_, h) :: rest =>
    if h.fails then ([Effect.cancel h.hid], some JsError.handleThrew)
    else
      let r := runCancels rest
      (Effect.cancel h.hid :: r.1, r.2)

/-- #unsubscribeAll: invoke every registered handle; the registry itself is
not modified. -/
def unsubscribeAll (s : Session) : Outcome :=
  let r := runCancels s.subscriptions
  { s := s, effs := r.1, err := r.2 }

/-- #logout: persist active=false, invoke every handle, then clear uid,
profile and registry (the clearing lines never run when a handle throws). -/
def logout (s : Session) : Outcome :=
  let a := setActiveStatus s false
  let r := runCancels s.subscriptions
  match r.2 with
  | some e => { s := s, effs := a ++ r.1, err := some e }
  | none =>
    { s := { s with uid := none, user := none, subscriptions := [] },
      effs := a ++ r.1, err := none }

/-- #close: invoke every handle, persist active=false when uid is truthy,
then invoke the session removal callback when one was supplied (a throwing
handle aborts before the persistence and the callback). -/
def close (s : Session) : Outcome :=
  let r := runCancels s.subscriptions
  match r.2 with
  | some e => { s := s, effs := r.1, err := some e }
  | none =>
    { s := s,
      effs := r.1 ++ setActiveStatus s false ++
        (if s.onClose then [Effect.onClose] else []),
      err := none }

/-- The switch of #handleMessage: route the request by type to its handler;
an unknown type matches no case. -/
def dispatch (o : Oracle) (s : Session) (request : Request) : Outcome :=
  match request.type with
  | "fetch" => ofPair (fetchUser o s)
  | "subscribe" => handleSubscribe o s request.params
  | "unsubscribe" => unsubscribe s request.params.sid
  | "get" => { s := s, effs := handleGet o s request.params, err := none }
  | "post" => { s := s, effs := handlePost o s request.params, err := none }
  | "logout" => logout s
  | _ => { s := s, effs := [], err := none }

/-- #handleMessage: JSON.parse throws on a malformed frame (nothing catches
it).  A verify-typed request starts #verifyToken and the synchronous gate then
returns (the dispatch switch has no verify case), so the observable effects of
a verify request are exactly those of the verification continuation; any other
request is dropped at the gate while uid is null, else dispatched. -/
def handleMessage (o : Oracle) (s : Session) (message : RawFrame) : Outcome :=
  match message with
  | RawFrame.bad => { s := s, effs := [], err := some JsError.jsonParse }
  | RawFrame.ok request =>
    if request.type = "verify" then ofPair (verifyToken o s request.params.token)
    else if s.uid = none then { s := s, effs := [], err := none }
    else dispatch o s request

/-- Handle a list of frames in order, stopping at the first uncaught
exception and concatenating the effect traces. -/
def runMessages (o : Oracle) : Session → List RawFrame → Outcome
  | s, [] => { s := s, effs := [], err := none }
  | s, m :: ms =>
    let r := handleMessage o s m
    match r.err with
    | some e => { s := r.s, effs := r.effs, err := some e }
    | none =>
      let r2 := runMessages o r.s ms
      { s := r2.s, effs := r.effs ++ r2.effs, err := r2.err }

/-- The subscription ids carried by subscribe-success events in a trace. -/
def emittedSids (effs : List Effect) : List String :=
  effs.filterMap fun e =>
    match e with
    | Effect.emit (Event.subscribeSuccess _ sid) => some sid
    | _ => none

/-- The events emitted in a trace. -/
def emittedEvents (effs : List Effect) : List Event :=
  effs.filterMap fun e =>
    match e with
    | Effect.emit ev => some ev
    | _ => none

/-- The data store operations performed in a trace. -/
def storeOps (effs : List Effect) : List StoreOp :=
  effs.filterMap fun e =>
    match e with
    | Effect.store op => some op
    | _ => none

/-- The cancellation-handle invocations in a trace. -/
def cancels (effs : List Effect) : List Nat :=
  effs.filterMap fun e =>
    match e with
    | Effect.cancel h => some h
    | _ => none

/-- index.js connection pool removal: connectionPool.delete(id). -/
def poolDelete (pool : List String) (id : String) : List String :=
  pool.erase id

/-! ## Concrete fixtures used by witnesses and counterexamples -/

/-- A basic oracle: verification always fails, every document is missing,
queries are empty, and the nanoid stream is injective. -/
def oA : Oracle :=
  { verify := fun _ => Except.error "bad"
    docData := fun _ => none
    queryResult := fun _ => []
    addResult := fun _ _ => "new"
    now := "t0"
    nanoid := fun k => "n" ++ toString k
    fuel := 1
    cancelFails := fun _ => false }

/-- An oracle whose verification accepts exactly the token T1 as subject U1. -/
def oV : Oracle :=
  { oA with
    verify := fun t => if t = some "T1" then Except.ok "U1" else Except.error "bad-token"
    docData := fun p => if p = ["users", "U1"] then some [("user_type", "patient")] else none }

/-- An oracle whose nanoid stream is constant: every draw yields the same
string dup. -/
def oC : Oracle := { oA with nanoid := fun _ => "dup" }

/-- A fresh session, as built by the ApiSocket constructor. -/
def s0 : Session :=
  { uid := none, user := none, subscriptions := [], nextHid := 0, rngIndex := 0,
    onClose := true }

/-- A session authenticated as U1 with an empty registry. -/
def sAuth : Session := { s0 with uid := some "U1", user := some [("user_type", "patient")] }

/-- A session authenticated as U2. -/
def sAuth2 : Session := { s0 with uid := some "U2", user := some [("user_type", "doctor")] }

/-- An authenticated session holding one registered subscription a whose
handle does not throw. -/
def sSub : Session :=
  { sAuth with subscriptions := [("a", { hid := 5, fails := false })], nextHid := 6 }

/-- An authenticated session holding two subscriptions, the first of which
throws when its cancellation handle is invoked. -/
def sFail : Session :=
  { sAuth with
    subscriptions := [("a", { hid := 1, fails := true }),
                      ("b", { hid := 2, fails := false })],
    nextHid := 3 }

/-! ## Shared lemmas -/

/-- The pre-verify gate: with uid null, any request whose type is not verify
is dropped with no effect. -/
theorem gate_drop (o : Oracle) (s : Session) (request : Request)
    (hu : s.uid = none) (ht : request.type ≠ "verify") :
    handleMessage o s (RawFrame.ok request) = { s := s, effs := [], err := none } := by
  simp [handleMessage, ht, hu]

/-! ## Claims -/

/-- Claim C1: for every session whose subject id is unset, handling any
request whose type is not verify emits no outgoing event, performs no data
store call, and leaves the session state unchanged. -/
theorem C1_unauth_nonverify_noop (o : Oracle) (s : Session) (request : Request)
    (hu : s.uid = none) (ht : request.type ≠ "verify") :
    handleMessage o s (RawFrame.ok request) = { s := s, effs := [], err := none }
    ∧ emittedEvents (handleMessage o s (RawFrame.ok request)).effs = []
    ∧ storeOps (handleMessage o s (RawFrame.ok request)).effs = [] := by
  have h := gate_drop o s request hu ht
  refine ⟨h, ?_, ?_⟩ <;> rw [h] <;> rfl

/-- Witness for C1 at a concrete unauthenticated session and a get request. -/
theorem C1_witness :
    handleMessage oA s0 (RawFrame.ok { type := "get" }) = { s := s0, effs := [], err := none }
    ∧ emittedEvents (handleMessage oA s0 (RawFrame.ok { type := "get" })).effs = []
    ∧ storeOps (handleMessage oA s0 (RawFrame.ok { type := "get" })).effs = [] :=
  C1_unauth_nonverify_noop oA s0 { type := "get" } rfl (by decide)

/-- Claim C5 (code bug evidence): a frame whose payload is not parseable as
JSON makes JSON.parse throw inside the message handler, and nothing catches
the exception: the outcome is neither a silent drop nor a session close but an
uncaught exception escaping the handler. -/
theorem C5_malformed_frame_escape (o : Oracle) (s : Session) :
    handleMessage o s RawFrame.bad
      = { s := s, effs := [], err := some JsError.jsonParse } := rfl

/-- Claim C6: a verify request on which the verification capability succeeds
with a nonempty subject id sets uid, fetches and caches the subject profile,
persists active=true for that subject, and emits verify-success (preceded by
the fetch-success that #fetchUser itself emits); on verification failure an
error event carrying the detail is emitted and the session state is
unchanged. -/
theorem C6_verify_transitions (o : Oracle) (s : Session) (p : Params) (u e : String)
    (hne : u ≠ "") :
    (o.verify p.token = Except.ok u →
      handleMessage o s (RawFrame.ok { type := "verify", params := p })
        = { s := { s with uid := some u, user := o.docData ["users", u] },
            effs := [Effect.store (StoreOp.getDoc ["users", u]),
                     Effect.emit Event.fetchSuccess,
                     Effect.store (StoreOp.setDoc ["users", u] [("active", "true")] true),
                     Effect.emit Event.verifySuccess],
            err := none })
    ∧ (o.verify p.token = Except.error e →
      handleMessage o s (RawFrame.ok { type := "verify", params := p })
        = { s := s, effs := [Effect.emit (Event.error e)], err := none }) := by
  constructor
  · intro hv
    simp [handleMessage, verifyToken, hv, ofPair, fetchUser, uidStr, setActiveStatus, hne]
  · intro hv
    simp [handleMessage, verifyToken, hv, ofPair]

/-- Witness for C6: concrete success and failure runs of verify. -/
theorem C6_witness :
    (handleMessage oV s0 (RawFrame.ok { type := "verify", params := { token := some "T1" } })
      = { s := { s0 with uid := some "U1", user := oV.docData ["users", "U1"] },
          effs := [Effect.store (StoreOp.getDoc ["users", "U1"]),
                   Effect.emit Event.fetchSuccess,
                   Effect.store (StoreOp.setDoc ["users", "U1"] [("active", "true")] true),
                   Effect.emit Event.verifySuccess],
          err := none })
    ∧ (handleMessage oV s0 (RawFrame.ok { type := "verify", params := { token := some "T2" } })
      = { s := s0, effs := [Effect.emit (Event.error "bad-token")], err := none }) :=
  ⟨(C6_verify_transitions oV s0 { token := some "T1" } "U1" "x" (by decide)).1 rfl,
   (C6_verify_transitions oV s0 { token := some "T2" } "U1" "bad-token" (by decide)).2 rfl⟩

/-- The post request of claim C10: replace the user document at the request
supplied uid with the request supplied object. -/
def postUserReq (uid : String) (user : Doc) (ref : Option String) : Request :=
  { type := "post",
    params := { collection := some "user", uid := some uid, user := some user, ref := ref } }

/-- Claim C10: on any authenticated session, a post request with collection
user performs exactly one store operation: a non-merge set of the user
document at the request-supplied uid to the request-supplied object; the
trace is identical across sessions authenticated as different subjects, and
the session state is unchanged. -/
theorem C10_post_user_replace (o : Oracle) (s1 s2 : Session) (uid : String)
    (user : Doc) (ref : Option String)
    (h1 : s1.uid.isSome = true) (h2 : s2.uid.isSome = true) :
    storeOps (handleMessage o s1 (RawFrame.ok (postUserReq uid user ref))).effs
      = [StoreOp.setDoc ["users", uid] user false]
    ∧ (handleMessage o s1 (RawFrame.ok (postUserReq uid user ref))).effs
      = (handleMessage o s2 (RawFrame.ok (postUserReq uid user ref))).effs
    ∧ (handleMessage o s1 (RawFrame.ok (postUserReq uid user ref))).s = s1 := by
  obtain ⟨u1, hu1⟩ := Option.isSome_iff_exists.mp h1
  obtain ⟨u2, hu2⟩ := Option.isSome_iff_exists.mp h2
  refine ⟨?_, ?_, ?_⟩ <;>
    simp [handleMessage, postUserReq, dispatch, handlePost, setUser, storeOps, hu1, hu2]

/-- Witness for C10 at two concrete sessions authenticated as different
subjects. -/
theorem C10_witness :
    storeOps (handleMessage oA sAuth (RawFrame.ok (postUserReq "X" [("name", "bob")] (some "r")))).effs
      = [StoreOp.setDoc ["users", "X"] [("name", "bob")] false]
    ∧ (handleMessage oA sAuth (RawFrame.ok (postUserReq "X" [("name", "bob")] (some "r")))).effs
      = (handleMessage oA sAuth2 (RawFrame.ok (postUserReq "X" [("name", "bob")] (some "r")))).effs
    ∧ (handleMessage oA sAuth (RawFrame.ok (postUserReq "X" [("name", "bob")] (some "r")))).s = sAuth :=
  C10_post_user_replace oA sAuth sAuth2 "X" [("name", "bob")] (some "r") rfl rfl

/-- The request types the dispatch switch matches (plus verify, handled
before the switch). -/
def knownTypes : List String :=
  ["verify", "fetch", "subscribe", "unsubscribe", "get", "post", "logout"]

/-- Every collection value matched by some case of #handleSubscribe,
#handleGet or #handlePost. -/
def knownCollections : List String :=
  ["appointments", "chats", "messages", "user", "doctors", "chatId",
   "message", "seen", "appointment"]

/-- Counterexample to claim C2: on an authenticated session, a post request
whose collection matches no handler is not silent: the generic post-success
event is still emitted. -/
theorem C2_counterexample :
    emittedEvents (handleMessage oA sAuth
        (RawFrame.ok { type := "post",
                       params := { collection := some "bogus", ref := some "r" } })).effs
      = [Event.postSuccess (some "r")]
    ∧ emittedEvents (handleMessage oA sAuth
        (RawFrame.ok { type := "post",
                       params := { collection := some "bogus", ref := some "r" } })).effs
      ≠ [] :=
  ⟨rfl, by decide⟩

/-- Claim C2 as amended: on an authenticated session an unknown request type
is silently ignored (no handler runs, no event), while an unknown collection
inside a post, get or subscribe request runs no collection handler and makes
no store call but still emits the generic success event (post-success;
get-success with undefined content; subscribe-success with a freshly drawn
subscription id that is not registered). -/
theorem C2_amended (o : Oracle) (s : Session) (p : Params) (t c : String)
    (hu : s.uid.isSome = true)
    (ht : t ∉ knownTypes)
    (hp : p.collection = some c)
    (hc : c ∉ knownCollections) :
    handleMessage o s (RawFrame.ok { type := t, params := p })
      = { s := s, effs := [], err := none }
    ∧ handleMessage o s (RawFrame.ok { type := "post", params := p })
      = { s := s, effs := [Effect.emit (Event.postSuccess p.ref)], err := none }
    ∧ handleMessage o s (RawFrame.ok { type := "get", params := p })
      = { s := s, effs := [Effect.emit (Event.getSuccess p.ref none)], err := none }
    ∧ (∀ sid k, newSubscriptionId o s = some (sid, k) →
        handleMessage o s (RawFrame.ok { type := "subscribe", params := p })
          = { s := { s with rngIndex := k },
              effs := [Effect.emit (Event.subscribeSuccess p.ref sid)],
              err := none }) := by
  obtain ⟨u, hu1⟩ := Option.isSome_iff_exists.mp hu
  have hv : t ≠ "verify" := fun h => ht (by rw [h]; decide)
  have hgate : ∀ t2 : String, t2 ≠ "verify" →
      handleMessage o s (RawFrame.ok { type := t2, params := p })
        = dispatch o s { type := t2, params := p } := by
    intro t2 ht2
    simp [handleMessage, ht2, hu1]
  have hdpost : dispatch o s { type := "post", params := p }
      = { s := s, effs := handlePost o s p, err := none } := rfl
  have hdget : dispatch o s { type := "get", params := p }
      = { s := s, effs := handleGet o s p, err := none } := rfl
  have hdsub : dispatch o s { type := "subscribe", params := p }
      = handleSubscribe o s p := rfl
  refine ⟨?_, ?_, ?_, ?_⟩
  · rw [hgate t hv]
    unfold dispatch
    split
    all_goals first
      | rfl
      | (rename_i heq; dsimp only at heq; exact absurd (by rw [heq]; decide) ht)
  · rw [hgate "post" (by decide), hdpost]
    simp only [handlePost, hp]
    split
    all_goals first
      | (rename_i heq; injection heq with heq;
         exact absurd (by rw [heq]; decide) hc)
      | simp
  · rw [hgate "get" (by decide), hdget]
    simp only [handleGet, hp]
    split
    all_goals first
      | (rename_i heq; injection heq with heq;
         exact absurd (by rw [heq]; decide) hc)
      | simp
  · intro sid k hn
    rw [hgate "subscribe" (by decide), hdsub]
    simp only [handleSubscribe, hn, hp]
    split
    all_goals first
      | (rename_i heq; injection heq with heq;
         exact absurd (by rw [heq]; decide) hc)
      | simp

/-- The params object used in the C2 witness. -/
def pBogus : Params := { collection := some "bogus", ref := some "r" }

/-- Witness for the amended C2 at a concrete authenticated session, unknown
type zzz and unknown collection bogus. -/
theorem C2_witness :
    handleMessage oA sAuth (RawFrame.ok { type := "zzz", params := pBogus })
      = { s := sAuth, effs := [], err := none }
    ∧ handleMessage oA sAuth (RawFrame.ok { type := "post", params := pBogus })
      = { s := sAuth, effs := [Effect.emit (Event.postSuccess (some "r"))], err := none }
    ∧ handleMessage oA sAuth (RawFrame.ok { type := "get", params := pBogus })
      = { s := sAuth, effs := [Effect.emit (Event.getSuccess (some "r") none)], err := none }
    ∧ handleMessage oA sAuth (RawFrame.ok { type := "subscribe", params := pBogus })
      = { s := { sAuth with rngIndex := 1 },
          effs := [Effect.emit (Event.subscribeSuccess (some "r") "n0")], err := none } := by
  have h := C2_amended oA sAuth pBogus "zzz" "bogus" rfl (by decide) rfl (by decide)
  exact ⟨h.1, h.2.1, h.2.2.1, h.2.2.2 "n0" 1 rfl⟩

/-- Counterexample to claim C3: unsubscribing a registered id invokes the
handle first and deletes the mapping second, not the remove-then-invoke order
the claim states. -/
theorem C3_counterexample :
    (handleMessage oA sSub
        (RawFrame.ok { type := "unsubscribe", params := { sid := some "a" } })).effs
      = [Effect.cancel 5, Effect.mapDelete "a"]
    ∧ ([Effect.cancel 5, Effect.mapDelete "a"] : List Effect)
      ≠ [Effect.mapDelete "a", Effect.cancel 5] := by
  decide

/-- Claim C3 as amended: unsubscribing an id absent from the registry is a
no-op with no event; unsubscribing a registered id invokes the handle exactly
once and then removes the mapping (invoke-then-remove order; a throwing
handle therefore leaves its mapping in place). -/
theorem C3_amended (s : Session) (sid : String) :
    (s.subscriptions.lookup sid = none →
      unsubscribe s (some sid) = { s := s, effs := [], err := none })
    ∧ (∀ h, s.subscriptions.lookup sid = some h → h.fails = false →
        unsubscribe s (some sid)
          = { s := { s with subscriptions := mapEraseKey s.subscriptions sid },
              effs := [Effect.cancel h.hid, Effect.mapDelete sid], err := none })
    ∧ (∀ h, s.subscriptions.lookup sid = some h →
        cancels (unsubscribe s (some sid)).effs = [h.hid]) := by
  refine ⟨?_, ?_, ?_⟩
  · intro hl; simp [unsubscribe, hl]
  · intro h hl hf; simp [unsubscribe, hl, hf]
  · intro h hl
    rcases hf : h.fails with _ | _ <;> simp [unsubscribe, hl, hf, cancels]

/-- Witness for the amended C3: removing the single registered subscription of
a concrete session. -/
theorem C3_witness :
    unsubscribe sSub (some "a")
      = { s := { sSub with subscriptions := [] },
          effs := [Effect.cancel 5, Effect.mapDelete "a"], err := none } :=
  (C3_amended sSub "a").2.1 { hid := 5, fails := false } rfl rfl

/-- #unsubscribeAll on an all-succeeding registry invokes every handle in
insertion order and leaves the registry untouched. -/
theorem runCancels_ok (l : List (String × Handle))
    (h : ∀ p ∈ l, p.2.fails = false) :
    runCancels l = (l.map (fun p => Effect.cancel p.2.hid), none) := by
  induction l with
  | nil => rfl
  | cons a rest ih =>
    obtain ⟨k, hd⟩ := a
    have ha : hd.fails = false := h (k, hd) (List.mem_cons_self _ _)
    have hrest : ∀ p ∈ rest, p.2.fails = false :=
      fun p hp => h p (List.mem_cons_of_mem _ hp)
    simp [runCancels, ha, ih hrest]

/-- #unsubscribeAll stops at the first throwing handle: the handles before it
are invoked, the throwing one is invoked, and the exception propagates. -/
theorem runCancels_fail (pre : List (String × Handle)) (p : String × Handle)
    (post : List (String × Handle))
    (hpre : ∀ q ∈ pre, q.2.fails = false) (hp : p.2.fails = true) :
    runCancels (pre ++ p :: post)
      = (pre.map (fun q => Effect.cancel q.2.hid) ++ [Effect.cancel p.2.hid],
         some JsError.handleThrew) := by
  induction pre with
  | nil =>
    obtain ⟨k, hd⟩ := p
    simp only [] at hp
    simp [runCancels, hp]
  | cons a rest ih =>
    obtain ⟨k, hd⟩ := a
    have ha : hd.fails = false := hpre (k, hd) (List.mem_cons_self _ _)
    have hrest : ∀ q ∈ rest, q.2.fails = false :=
      fun q hq => hpre q (List.mem_cons_of_mem _ hq)
    simp [runCancels, ha, ih hrest]

/-- Counterexample to claim C4: with a registry whose first handle throws,
the bulk cancellation leaves every mapping in the registry and never invokes
the second registered handle. -/
theorem C4_counterexample :
    (unsubscribeAll sFail).s.subscriptions = sFail.subscriptions
    ∧ sFail.subscriptions ≠ []
    ∧ (∃ q ∈ sFail.subscriptions, q.2.hid = 2)
    ∧ Effect.cancel 2 ∉ (unsubscribeAll sFail).effs := by
  decide

/-- Claim C4 as amended: the bulk cancellation invokes the handles in
registration order; when none throws, every handle is invoked exactly once
and the exception slot stays empty, but no mapping is removed from the
registry by the bulk operation itself; when a handle throws, the handles
before it and the throwing one are invoked, the remaining ones are not, and
the exception propagates. -/
theorem C4_amended (s : Session) :
    ((∀ p ∈ s.subscriptions, p.2.fails = false) →
      unsubscribeAll s
        = { s := s, effs := s.subscriptions.map (fun p => Effect.cancel p.2.hid),
            err := none })
    ∧ (∀ pre p post, s.subscriptions = pre ++ p :: post →
        (∀ q ∈ pre, q.2.fails = false) → p.2.fails = true →
        unsubscribeAll s
          = { s := s,
              effs := pre.map (fun q => Effect.cancel q.2.hid)
                        ++ [Effect.cancel p.2.hid],
              err := some JsError.handleThrew })
    ∧ (unsubscribeAll s).s.subscriptions = s.subscriptions := by
  refine ⟨?_, ?_, rfl⟩
  · intro h
    simp [unsubscribeAll, runCancels_ok _ h]
  · intro pre p post hsplit hpre hp
    simp [unsubscribeAll, hsplit, runCancels_fail pre p post hpre hp]

/-- Witness for the amended C4: the concrete session whose first handle
throws invokes only that handle and propagates the exception. -/
theorem C4_witness :
    unsubscribeAll sFail
      = { s := sFail, effs := [Effect.cancel 1], err := some JsError.handleThrew } :=
  (C4_amended sFail).2.1 [] ("a", { hid := 1, fails := true })
    [("b", { hid := 2, fails := false })] rfl
    (fun q hq => absurd hq (List.not_mem_nil q)) rfl

/-- Claim C8: on an authenticated session whose subject id is nonempty and
whose registered handles do not throw, logout persists active=false for the
subject, invokes every registered cancellation handle, clears uid, cached
profile and registry, emits no websocket event of its own, and a subsequent
non-verify request on the cleared session is again dropped with no effect. -/
theorem C8_logout (o : Oracle) (s : Session) (p : Params) (u t : String)
    (hu : s.uid = some u) (hne : u ≠ "")
    (hok : ∀ q ∈ s.subscriptions, q.2.fails = false)
    (ht : t ≠ "verify") :
    handleMessage o s (RawFrame.ok { type := "logout", params := p })
      = { s := { s with uid := none, user := none, subscriptions := [] },
          effs := Effect.store (StoreOp.setDoc ["users", u] [("active", "false")] true)
                    :: s.subscriptions.map (fun q => Effect.cancel q.2.hid),
          err := none }
    ∧ (∀ ev, Effect.emit ev
        ∉ (handleMessage o s (RawFrame.ok { type := "logout", params := p })).effs)
    ∧ handleMessage o { s with uid := none, user := none, subscriptions := [] }
        (RawFrame.ok { type := t, params := p })
      = { s := { s with uid := none, user := none, subscriptions := [] },
          effs := [], err := none } := by
  have hgate2 : handleMessage o s (RawFrame.ok { type := "logout", params := p })
      = dispatch o s { type := "logout", params := p } := by
    simp [handleMessage, hu]
  have hd : dispatch o s { type := "logout", params := p } = logout s := rfl
  have hmain : handleMessage o s (RawFrame.ok { type := "logout", params := p })
      = { s := { s with uid := none, user := none, subscriptions := [] },
          effs := Effect.store (StoreOp.setDoc ["users", u] [("active", "false")] true)
                    :: s.subscriptions.map (fun q => Effect.cancel q.2.hid),
          err := none } := by
    rw [hgate2, hd]
    simp [logout, setActiveStatus, hu, hne, runCancels_ok _ hok]
  refine ⟨hmain, ?_, ?_⟩
  · intro ev hmem
    rw [hmain] at hmem
    simp [List.mem_cons, List.mem_map] at hmem
  · exact gate_drop o _ _ rfl ht

/-- Witness for C8: logout of a concrete authenticated session holding one
subscription, followed by a dropped get request. -/
theorem C8_witness :
    handleMessage oA sSub (RawFrame.ok { type := "logout" })
      = { s := { sSub with uid := none, user := none, subscriptions := [] },
          effs := [Effect.store (StoreOp.setDoc ["users", "U1"] [("active", "false")] true),
                   Effect.cancel 5],
          err := none }
    ∧ Effect.emit Event.verifySuccess
        ∉ (handleMessage oA sSub (RawFrame.ok { type := "logout" })).effs
    ∧ handleMessage oA { sSub with uid := none, user := none, subscriptions := [] }
        (RawFrame.ok { type := "get" })
      = { s := { sSub with uid := none, user := none, subscriptions := [] },
          effs := [], err := none } := by
  have h := C8_logout oA sSub {} "U1" "get" rfl (by decide) (by decide) (by decide)
  exact ⟨h.1, h.2.1 Event.verifySuccess, h.2.2⟩

/-- The cancellation extraction distributes over trace concatenation. -/
theorem cancels_append (a b : List Effect) :
    cancels (a ++ b) = cancels a ++ cancels b := by
  simp [cancels, List.filterMap_append]

/-- Extracting the cancellations from a pure block of handle invocations
yields exactly the handle identities. -/
theorem cancels_map_cancel (l : List (String × Handle)) :
    cancels (l.map (fun q => Effect.cancel q.2.hid)) = l.map (fun q => q.2.hid) := by
  induction l with
  | nil => rfl
  | cons a rest ih =>
    show cancels (Effect.cancel a.2.hid :: rest.map (fun q => Effect.cancel q.2.hid))
        = a.2.hid :: rest.map (fun q => q.2.hid)
    rw [show cancels (Effect.cancel a.2.hid :: rest.map (fun q => Effect.cancel q.2.hid))
        = a.2.hid :: cancels (rest.map (fun q => Effect.cancel q.2.hid)) from rfl, ih]

/-- The active-flag persistence performs no handle invocation. -/
theorem cancels_setActiveStatus (s : Session) (b : Bool) :
    cancels (setActiveStatus s b) = [] := by
  unfold setActiveStatus
  split
  · rfl
  · split <;> rfl

/-- Claim C9: on a session whose handles do not throw, with a close callback
supplied and a subject id that is not the empty string, the transport close
invokes each registered cancellation handle exactly once, persists
active=false exactly when a subject id is set, invokes the session-removal
callback exactly once, and removing the connection id from a duplicate-free
connection pool removes exactly that one entry. -/
theorem C9_close (s : Session) (pool : List String) (id : String)
    (hok : ∀ q ∈ s.subscriptions, q.2.fails = false)
    (hcb : s.onClose = true)
    (hne : s.uid ≠ some "")
    (hmem : id ∈ pool) (hnd : pool.Nodup) :
    cancels (close s).effs = s.subscriptions.map (fun q => q.2.hid)
    ∧ (close s).effs.count Effect.onClose = 1
    ∧ ((∃ v, s.uid = some v) ↔
        (∃ v, Effect.store (StoreOp.setDoc ["users", v] [("active", "false")] true)
          ∈ (close s).effs))
    ∧ (close s).err = none
    ∧ id ∉ poolDelete pool id
    ∧ (poolDelete pool id).length + 1 = pool.length
    ∧ (∀ j ∈ pool, j ≠ id → j ∈ poolDelete pool id) := by
  have hc : close s
      = { s := s,
          effs := s.subscriptions.map (fun q => Effect.cancel q.2.hid)
                    ++ setActiveStatus s false ++ [Effect.onClose],
          err := none } := by
    simp [close, runCancels_ok _ hok, hcb]
  refine ⟨?_, ?_, ?_, ?_, ?_, ?_, ?_⟩
  · rw [hc]
    show cancels (s.subscriptions.map (fun q => Effect.cancel q.2.hid)
        ++ setActiveStatus s false ++ [Effect.onClose]) = _
    rw [cancels_append, cancels_append, cancels_map_cancel, cancels_setActiveStatus]
    simp [cancels]
  · rw [hc]
    rcases hus : s.uid with _ | u
    · simp [setActiveStatus, hus, List.count_append, List.count_eq_zero, List.mem_map]
    · have hun : u ≠ "" := fun h => hne (by rw [hus, h])
      simp [setActiveStatus, hus, hun, List.count_append, List.count_eq_zero, List.mem_map]
  · rw [hc]
    rcases hus : s.uid with _ | u
    · simp [setActiveStatus, hus, List.mem_append, List.mem_map]
    · have hun : u ≠ "" := fun h => hne (by rw [hus, h])
      constructor
      · intro _
        exact ⟨u, by simp [setActiveStatus, hus, hun, List.mem_append]⟩
      · intro _
        exact ⟨u, rfl⟩
  · rw [hc]
  · exact hnd.not_mem_erase
  · have h1 := List.length_erase_of_mem hmem
    have h2 := List.length_pos_of_mem hmem
    unfold poolDelete
    omega
  · intro j hj hji
    exact (List.mem_erase_of_ne hji).mpr hj

/-- Witness for C9: closing a concrete authenticated session holding one
subscription, with a two-entry connection pool. -/
theorem C9_witness :
    cancels (close sSub).effs = [5]
    ∧ (close sSub).effs.count Effect.onClose = 1
    ∧ ((∃ v, sSub.uid = some v) ↔
        (∃ v, Effect.store (StoreOp.setDoc ["users", v] [("active", "false")] true)
          ∈ (close sSub).effs))
    ∧ (close sSub).err = none
    ∧ "c1" ∉ poolDelete ["c1", "c2"] "c1"
    ∧ (poolDelete ["c1", "c2"] "c1").length + 1 = (["c1", "c2"] : List String).length
    ∧ "c2" ∈ poolDelete ["c1", "c2"] "c1" := by
  have h := C9_close sSub ["c1", "c2"] "c1" (by decide) rfl (by decide) (by decide) (by decide)
  exact ⟨h.1, h.2.1, h.2.2.1, h.2.2.2.1, h.2.2.2.2.1, h.2.2.2.2.2.1,
         h.2.2.2.2.2.2 "c2" (by decide) (by decide)⟩

/-! ## Claim C7: freshness of subscription ids -/

/-- A fresh-id search that returns an id also certifies that the id is not a
registry key (the loop retries exactly while the drawn id collides). -/
theorem findFresh_fresh (o : Oracle) (m : List (String × Handle)) :
    ∀ fuel k sid k2, findFresh o m fuel k = some (sid, k2) → m.lookup sid = none := by
  intro fuel
  induction fuel with
  | zero => intro k sid k2 h; simp [findFresh] at h
  | succ n ih =>
    intro k sid k2 h
    simp only [findFresh] at h
    cases hl : (m.lookup (o.nanoid k)).isSome with
    | true =>
      rw [hl] at h
      simp only [if_true] at h
      exact ih _ _ _ h
    | false =>
      rw [hl] at h
      simp only [Bool.false_eq_true, if_false, Option.some.injEq, Prod.mk.injEq] at h
      rw [← h.1]
      exact Option.not_isSome_iff_eq_none.mp (by simp [hl])

/-- Map.set with a key that is not present appends the new entry. -/
theorem mapSet_fresh (m : List (String × Handle)) (k : String)
    (h : m.lookup k = none) (v : Handle) : mapSet m k v = m ++ [(k, v)] := by
  simp [mapSet, h]

/-- An entry of the registry list makes the lookup of its key succeed. -/
theorem lookupH_isSome_of_mem {m : List (String × Handle)} {p : String × Handle}
    (h : p ∈ m) : (m.lookup p.1).isSome := by
  induction m with
  | nil => cases h
  | cons a rest ih =>
    rcases List.mem_cons.mp h with h1 | h2
    · subst h1
      simp [List.lookup]
    · by_cases he : p.1 == a.1
      · simp [List.lookup, he]
      · simp only [List.lookup, he]
        exact ih h2

/-- A successful lookup is preserved by appending entries on the right. -/
theorem lookupH_append_left {m l : List (String × Handle)} {j : String} {v : Handle}
    (h : m.lookup j = some v) : (m ++ l).lookup j = some v := by
  induction m with
  | nil => simp [List.lookup] at h
  | cons a rest ih =>
    rw [List.cons_append]
    by_cases he : j == a.1
    · simpa [List.lookup, he] using h
    · simp only [List.lookup, he] at h ⊢
      exact ih h

/-- The subscription-id extraction distributes over trace concatenation. -/
theorem emittedSids_append (a b : List Effect) :
    emittedSids (a ++ b) = emittedSids a ++ emittedSids b := by
  simp [emittedSids, List.filterMap_append]

/-- The params name a collection that some case of #handleSubscribe
matches. -/
def knownSubCollection (p : Params) : Prop :=
  p.collection = some "appointments" ∨ p.collection = some "chats"
    ∨ p.collection = some "messages" ∨ p.collection = some "user"

/-- A subscribe request for a known collection, whose id allocation
succeeds, appends exactly one registry entry under the allocated id, leaves
uid unchanged, emits that id in its single subscribe-success event, and
raises nothing. -/
theorem handleSubscribe_known (o : Oracle) (s : Session) (p : Params)
    (hk : knownSubCollection p) (sid : String) (k : Nat)
    (hn : newSubscriptionId o s = some (sid, k)) :
    (handleSubscribe o s p).s.subscriptions
        = s.subscriptions ++ [(sid, newHandle o s)]
    ∧ (handleSubscribe o s p).s.uid = s.uid
    ∧ emittedSids (handleSubscribe o s p).effs = [sid]
    ∧ (handleSubscribe o s p).err = none := by
  have hfresh : s.subscriptions.lookup sid = none :=
    findFresh_fresh o s.subscriptions o.fuel s.rngIndex sid k hn
  rcases hk with h | h | h | h <;>
    refine ⟨?_, ?_, ?_, ?_⟩ <;>
      simp [handleSubscribe, hn, h, subscribeAppointments, subscribeChats,
            subscribeMessages, subscribeUser, newHandle, emittedSids,
            mapSet_fresh _ _ hfresh]

/-- Every frame of the list is a subscribe request for a known collection. -/
def allKnownSubs (frames : List RawFrame) : Prop :=
  ∀ f ∈ frames, ∃ p, f = RawFrame.ok { type := "subscribe", params := p }
    ∧ knownSubCollection p

/-- Invariant of a run of known subscribe requests: the emitted subscription
ids are pairwise distinct and never collide with a key already registered
before the run. -/
theorem runMessages_subscribe_inv (o : Oracle) :
    ∀ (frames : List RawFrame) (s : Session),
      s.uid.isSome = true →
      allKnownSubs frames →
      (runMessages o s frames).err = none →
      (emittedSids (runMessages o s frames).effs).Pairwise (fun a b => a ≠ b)
      ∧ (∀ q ∈ s.subscriptions, q.1 ∉ emittedSids (runMessages o s frames).effs) := by
  intro frames
  induction frames with
  | nil =>
    intro s hu hf hok
    exact ⟨by simp [runMessages, emittedSids], fun q hq => by simp [runMessages, emittedSids]⟩
  | cons f fs ih =>
    intro s hu hf hok
    obtain ⟨p, rfl, hk⟩ := hf f (List.mem_cons_self _ _)
    obtain ⟨u, hu1⟩ := Option.isSome_iff_exists.mp hu
    have hg : handleMessage o s (RawFrame.ok { type := "subscribe", params := p })
        = dispatch o s { type := "subscribe", params := p } := by
      simp [handleMessage, hu1]
    have hstep : handleMessage o s (RawFrame.ok { type := "subscribe", params := p })
        = handleSubscribe o s p := hg.trans rfl
    cases hn : newSubscriptionId o s with
    | none =>
      have hbad : (runMessages o s (RawFrame.ok { type := "subscribe", params := p } :: fs)).err
          = some JsError.idLoopDiverges := by
        simp [runMessages, hstep, handleSubscribe, hn]
      rw [hbad] at hok
      cases hok
    | some pair =>
      obtain ⟨sid, k⟩ := pair
      obtain ⟨hsub, huid, hsids, herr⟩ := handleSubscribe_known o s p hk sid k hn
      have hfresh : s.subscriptions.lookup sid = none :=
        findFresh_fresh o s.subscriptions o.fuel s.rngIndex sid k hn
      have hrun : runMessages o s (RawFrame.ok { type := "subscribe", params := p } :: fs)
          = { s := (runMessages o (handleSubscribe o s p).s fs).s,
              effs := (handleSubscribe o s p).effs
                        ++ (runMessages o (handleSubscribe o s p).s fs).effs,
              err := (runMessages o (handleSubscribe o s p).s fs).err } := by
        simp [runMessages, hstep, herr]
      have hok2 : (runMessages o (handleSubscribe o s p).s fs).err = none := by
        rw [hrun] at hok
        exact hok
      have hu2 : (handleSubscribe o s p).s.uid.isSome = true := by
        rw [huid, hu1]; rfl
      have hf2 : allKnownSubs fs := fun g hg => hf g (List.mem_cons_of_mem _ hg)
      obtain ⟨ihpair, ihmem⟩ := ih (handleSubscribe o s p).s hu2 hf2 hok2
      have hsidmem : (sid, newHandle o s) ∈ (handleSubscribe o s p).s.subscriptions := by
        rw [hsub]
        exact List.mem_append_right _ (List.mem_singleton.mpr rfl)
      have hsidnot : sid ∉ emittedSids (runMessages o (handleSubscribe o s p).s fs).effs :=
        ihmem (sid, newHandle o s) hsidmem
      have hsidseq : emittedSids (runMessages o s
            (RawFrame.ok { type := "subscribe", params := p } :: fs)).effs
          = sid :: emittedSids (runMessages o (handleSubscribe o s p).s fs).effs := by
        rw [hrun]
        show emittedSids ((handleSubscribe o s p).effs
              ++ (runMessages o (handleSubscribe o s p).s fs).effs) = _
        rw [emittedSids_append, hsids]
        rfl
      constructor
      · rw [hsidseq]
        exact List.pairwise_cons.mpr
          ⟨fun b hb heq => hsidnot (heq ▸ hb), ihpair⟩
      · intro q hq
        rw [hsidseq]
        intro hmem
        rcases List.mem_cons.mp hmem with h1 | h2
        · have : (s.subscriptions.lookup q.1).isSome := lookupH_isSome_of_mem hq
          rw [h1, hfresh] at this
          cases this
        · have hqmem : q ∈ (handleSubscribe o s p).s.subscriptions := by
            rw [hsub]
            exact List.mem_append_left _ hq
          exact ihmem q hqmem h2

/-- Counterexample to claim C7: with a colliding id generator, two subscribe
requests naming an unknown collection each emit subscribe-success carrying
the same subscription id (the id of the first request is never registered,
so the collision-check loop does not protect it). -/
theorem C7_counterexample :
    emittedSids (runMessages oC sAuth
        [RawFrame.ok { type := "subscribe",
                       params := { collection := some "bogus", ref := some "r" } },
         RawFrame.ok { type := "subscribe",
                       params := { collection := some "bogus", ref := some "r" } }]).effs
      = ["dup", "dup"]
    ∧ ¬ (["dup", "dup"] : List String).Pairwise (fun a b => a ≠ b) := by
  refine ⟨rfl, ?_⟩
  intro h
  exact (List.pairwise_cons.mp h).1 "dup" (List.mem_cons_self _ _) rfl

/-- Claim C7 as amended: over any sequence of subscribe requests naming known
collections on one authenticated session (no intervening unsubscribe or
logout, and every id allocation terminating), the subscription ids emitted in
the subscribe-success events are pairwise distinct and none of them collides
with a key already registered before the sequence; moreover every successful
id allocation returns an id absent from the registry at allocation time. -/
theorem C7_distinct_sids (o : Oracle) (s : Session) (frames : List RawFrame)
    (hu : s.uid.isSome = true)
    (hf : allKnownSubs frames)
    (hok : (runMessages o s frames).err = none) :
    (emittedSids (runMessages o s frames).effs).Pairwise (fun a b => a ≠ b)
    ∧ (∀ q ∈ s.subscriptions, q.1 ∉ emittedSids (runMessages o s frames).effs)
    ∧ (∀ s1 sid k, newSubscriptionId o s1 = some (sid, k) →
        s1.subscriptions.lookup sid = none) := by
  obtain ⟨h1, h2⟩ := runMessages_subscribe_inv o frames s hu hf hok
  exact ⟨h1, h2, fun s1 sid k hn =>
    findFresh_fresh o s1.subscriptions o.fuel s1.rngIndex sid k hn⟩

/-- The frames of the C7 witness: two subscribe requests for known
collections. -/
def framesW : List RawFrame :=
  [RawFrame.ok { type := "subscribe", params := { collection := some "chats" } },
   RawFrame.ok { type := "subscribe",
                 params := { collection := some "user", uid := some "U1" } }]

/-- Witness for the amended C7: a concrete two-subscribe run on a session
already holding subscription a emits the distinct ids n0 and n1, does not
re-emit a, and the allocation of n0 found it absent from the registry. -/
theorem C7_witness :
    (emittedSids (runMessages oA sSub framesW).effs).Pairwise (fun a b => a ≠ b)
    ∧ ("a" : String) ∉ emittedSids (runMessages oA sSub framesW).effs
    ∧ sSub.subscriptions.lookup "n0" = none := by
  have h := C7_distinct_sids oA sSub framesW rfl
    (by
      intro f hf
      rcases List.mem_cons.mp hf with h1 | h1
      · exact ⟨_, h1, Or.inr (Or.inl rfl)⟩
      · rcases List.mem_cons.mp h1 with h2 | h2
        · exact ⟨_, h2, Or.inr (Or.inr (Or.inr rfl))⟩
        · cases h2)
    rfl
  exact ⟨h.1, h.2.1 ("a", { hid := 5, fails := false }) (by decide),
         h.2.2 sSub "n0" 1 rfl⟩

end ZeeU
